import Mathlib

/-!
Shallow embedding of the friendship lifecycle manager of the
data-dancer-dex admin panel (src/src/components/AdminPanel.tsx), together
with its read-model projections, and proofs of the spec's claims about it.

Modelling conventions:
* Identifiers (profile ids, row ids, log ids) are `String`s.  In the real
  system they are ASCII UUIDs generated by the database, on which the
  JavaScript code-unit order used by `friendManagerUser.id < friendId`
  coincides with Lean's `String` lexicographic order.
* ISO-8601 timestamp strings are modelled as `Nat` instants: on the
  fixed-width ISO format produced by `new Date().toISOString()`,
  lexicographic string order, `Date.getTime()` order and the numeric
  order agree, and `null` timestamps become `none`.
* The supabase tables are lists of rows held in a `DbState`; an `insert`
  appends at the end, an `update ... eq id` patches every row with that
  id, exactly as the generated REST layer does.  Fresh row/log ids that
  the database would generate are passed in as arguments.
* Storage-call failures are injected through a `StoreEnv` of booleans,
  one per storage call the handler makes, so that the error-handling
  paths of the TypeScript (`throw` into the surrounding `catch`) become
  explicit branches.
-/

namespace DataDancerDex

/-- A row of the `profiles` table, as in the `Profile` interface of
AdminPanel.tsx. -/
structure Profile where
  id : String
  full_name : String
  email : String
  phone : Option String := none
  birth_date : Option String := none
  height : Option Int := none
  weight : Option Int := none
  address : Option String := none
  avatar_url : Option String := none
  created_at : Nat := 0
deriving DecidableEq, Repr

/-- A row of the `friendships` table, as in the `Friendship` interface of
AdminPanel.tsx. -/
structure Friendship where
  id : String
  user_a_id : String
  user_b_id : String
  started_at : Nat
  ended_at : Option Nat
deriving DecidableEq, Repr

/-- A row of the `friendship_logs` table, as in the `FriendshipLog`
interface of AdminPanel.tsx. -/
structure FriendshipLog where
  id : String
  user_a_id : String
  user_b_id : String
  action : String
  created_at : Nat
deriving DecidableEq, Repr

/-- The durable database state the component reads and writes: the three
supabase tables consumed by AdminPanel.tsx. -/
structure DbState where
  profiles : List Profile
  friendships : List Friendship
  friendship_logs : List FriendshipLog
deriving DecidableEq, Repr

/-- Fault-injection environment: whether each storage call of a handler
succeeds.  `lookupOk` covers the existing-pair select, `rowWriteOk` the
friendship insert/update, `logWriteOk` the friendship_logs insert. -/
structure StoreEnv where
  lookupOk : Bool
  rowWriteOk : Bool
  logWriteOk : Bool
deriving DecidableEq, Repr

/-- The environment in which every storage call succeeds. -/
def allOk : StoreEnv := ⟨true, true, true⟩

/-- Outcome reported by `handleAddFriend` to its caller (which toast is
shown).  `failure` is the catch branch reached by any thrown storage
error. -/
inductive AddFriendResult where
  | selfValidation
  | alreadyFriends
  | added
  | failure
deriving DecidableEq, Repr

/-- Outcome reported by `handleRemoveFriend` to its caller. -/
inductive RemoveFriendResult where
  | notFriends
  | removed
  | failure
deriving DecidableEq, Repr

/-- The `or(and(user_a_id.eq.A,user_b_id.eq.B),and(user_a_id.eq.B,user_b_id.eq.A))`
filter both handlers use: the row holds the unordered pair in either
orientation. -/
def matchesPair (a b : String) (f : Friendship) : Bool :=
  (f.user_a_id == a && f.user_b_id == b) || (f.user_a_id == b && f.user_b_id == a)

/-- Stable insertion (descending by `key`) of one element into a sorted
list: the new element goes before the first strictly smaller key. -/
def insertDescBy (key : α → Nat) (x : α) : List α → List α
  | [] => [x]
  | y :: ys => if key y ≤ key x then x :: y :: ys else y :: insertDescBy key x ys

/-- Stable sort, descending by `key`: models both the store's
`order(col, descending)` and the (ES2019-stable) JavaScript
`Array.prototype.sort` with comparator `(a, b) => key(b) - key(a)`. -/
def sortDescBy (key : α → Nat) : List α → List α
  | [] => []
  | x :: xs => insertDescBy key x (sortDescBy key xs)

/-- The existing-pair lookup of `handleAddFriend`: select rows matching
the pair in either orientation, order by `started_at` descending,
`limit(1).maybeSingle()`. -/
def lookupPairAny (fs : List Friendship) (a b : String) : Option Friendship :=
  (sortDescBy Friendship.started_at (fs.filter (matchesPair a b))).head?

/-- The active-pair lookup of `handleRemoveFriend`: rows matching the
pair in either orientation with `ended_at` null, then `maybeSingle()`,
which errors when more than one row matches. -/
def lookupActivePair (fs : List Friendship) (a b : String) :
    Except Unit (Option Friendship) :=
  match fs.filter (fun f => matchesPair a b f && f.ended_at == none) with
  | [] => Except.ok none
  | [f] => Except.ok (some f)
  | _ => Except.error ()

/-- An `update(patch).eq(id, rowId)` on the friendships table: patch
every row whose id matches. -/
def updateFriendship (fs : List Friendship) (rowId : String)
    (patch : Friendship → Friendship) : List Friendship :=
  fs.map (fun f => if f.id == rowId then patch f else f)

/-- Lexicographic comparison of character lists by code point: the
JavaScript relational `<` on id strings (identical to code-unit order on
the ASCII UUIDs the database generates). -/
def charListLt : List Char → List Char → Bool
  | _, [] => false
  | [], _ :: _ => true
  | c :: cs, d :: ds =>
    if c.toNat < d.toNat then true
    else if d.toNat < c.toNat then false
    else charListLt cs ds

/-- JavaScript string `<` applied to two identifiers. -/
def idLt (a b : String) : Bool := charListLt a.data b.data

/-- The canonical storage orientation of a new pair row:
`friendManagerUser.id < friendId ? [actor, friend] : [friend, actor]`. -/
def canonPair (a b : String) : String × String :=
  if idLt a b then (a, b) else (b, a)

/-- `handleAddFriend` of AdminPanel.tsx, with `actorId` standing for
`friendManagerUser.id` and `friendId` for the argument.  `now` is the
single `new Date().toISOString()` taken at the top; `freshRowId` and
`freshLogId` are the ids the database would generate for the inserts. -/
def handleAddFriend (env : StoreEnv) (s : DbState) (actorId friendId : String)
    (now : Nat) (freshRowId freshLogId : String) : DbState × AddFriendResult :=
  if actorId == friendId then
    (s, AddFriendResult.selfValidation)
  else if env.lookupOk = false then
    (s, AddFriendResult.failure)
  else
    match lookupPairAny s.friendships actorId friendId with
    | some existingFriendship =>
      if existingFriendship.ended_at == none then
        (s, AddFriendResult.alreadyFriends)
      else if env.rowWriteOk = false then
        (s, AddFriendResult.failure)
      else
        let fs1 := updateFriendship s.friendships existingFriendship.id
          (fun f => { f with started_at := now, ended_at := none })
        if env.logWriteOk = false then
          ({ s with friendships := fs1 }, AddFriendResult.failure)
        else
          ({ s with friendships := fs1,
                    friendship_logs := s.friendship_logs ++
                      [⟨freshLogId, actorId, friendId, "started", now⟩] },
           AddFriendResult.added)
    | none =>
      if env.rowWriteOk = false then
        (s, AddFriendResult.failure)
      else
        let fs1 := s.friendships ++
          [⟨freshRowId, (canonPair actorId friendId).1,
            (canonPair actorId friendId).2, now, none⟩]
        if env.logWriteOk = false then
          ({ s with friendships := fs1 }, AddFriendResult.failure)
        else
          ({ s with friendships := fs1,
                    friendship_logs := s.friendship_logs ++
                      [⟨freshLogId, actorId, friendId, "started", now⟩] },
           AddFriendResult.added)

/-- `handleRemoveFriend` of AdminPanel.tsx.  Note there is no self-pair
check and the lookup filters on `ended_at` null with no limit. -/
def handleRemoveFriend (env : StoreEnv) (s : DbState) (actorId friendId : String)
    (now : Nat) (freshLogId : String) : DbState × RemoveFriendResult :=
  if env.lookupOk = false then
    (s, RemoveFriendResult.failure)
  else
    match lookupActivePair s.friendships actorId friendId with
    | Except.error _ => (s, RemoveFriendResult.failure)
    | Except.ok none => (s, RemoveFriendResult.notFriends)
    | Except.ok (some existingFriendship) =>
      if env.rowWriteOk = false then
        (s, RemoveFriendResult.failure)
      else
        let fs1 := updateFriendship s.friendships existingFriendship.id
          (fun f => { f with ended_at := some now })
        if env.logWriteOk = false then
          ({ s with friendships := fs1 }, RemoveFriendResult.failure)
        else
          ({ s with friendships := fs1,
                    friendship_logs := s.friendship_logs ++
                      [⟨freshLogId, actorId, friendId, "ended", now⟩] },
           RemoveFriendResult.removed)

/-- `handleDeleteUser` of AdminPanel.tsx: a plain `delete().eq(id, userId)`
on the profiles table; friendship and log rows are untouched. -/
def handleDeleteUser (s : DbState) (userId : String) : DbState :=
  { s with profiles := s.profiles.filter (fun p => !(p.id == userId)) }

/-- `profileMap.get`: a JavaScript `Map` built from `(id, profile)` pairs
keeps the LAST value set for a key, hence the reverse lookup. -/
def profileGet (profiles : List Profile) (userId : String) : Option Profile :=
  profiles.reverse.find? (fun p => p.id == userId)

/-- The `Map<string, Profile[]>` of `activeFriendMap`, as an association
list.  `mapSet` is JavaScript `Map.set`: replace in place when the key is
present, append otherwise. -/
def mapSet : List (String × List Profile) → String → List Profile →
    List (String × List Profile)
  | [], k, v => [(k, v)]
  | e :: m, k, v => if e.fst == k then (k, v) :: m else e :: mapSet m k v

/-- JavaScript `Map.get` on the association list. -/
def mapGet (m : List (String × List Profile)) (k : String) : Option (List Profile) :=
  (m.find? (fun e => e.fst == k)).map Prod.snd

/-- One iteration of the `forEach` in `activeFriendMap`: look both
endpoints up in the profile map and, only when both resolve, append each
profile to the other endpoint's friend list. -/
def friendMapStep (profiles : List Profile) (m : List (String × List Profile))
    (f : Friendship) : List (String × List Profile) :=
  match profileGet profiles f.user_a_id, profileGet profiles f.user_b_id with
  | some firstProfile, some secondProfile =>
    let m1 := mapSet m f.user_a_id ((mapGet m f.user_a_id).getD [] ++ [secondProfile])
    mapSet m1 f.user_b_id ((mapGet m1 f.user_b_id).getD [] ++ [firstProfile])
  | _, _ => m

/-- `activeFriendMap` of AdminPanel.tsx: fold the step over the
friendships whose `ended_at` is null. -/
def activeFriendMap (profiles : List Profile) (fs : List Friendship) :
    List (String × List Profile) :=
  (fs.filter (fun f => f.ended_at == none)).foldl (friendMapStep profiles) []

/-- `getFriendsForUser` of AdminPanel.tsx: the map entry, defaulting to
the empty list. -/
def getFriendsForUser (profiles : List Profile) (fs : List Friendship)
    (userId : String) : List Profile :=
  (mapGet (activeFriendMap profiles fs) userId).getD []

/-- `selectedUserLogs` of AdminPanel.tsx for a chosen user id: filter the
log snapshot to entries touching the user, then stable-sort descending by
`created_at` (the comparator subtracts the parsed times; there is no
further tie-break in the code). -/
def selectedUserLogs (logs : List FriendshipLog) (userId : String) :
    List FriendshipLog :=
  sortDescBy FriendshipLog.created_at
    (logs.filter (fun l => l.user_a_id == userId || l.user_b_id == userId))

/-- The friendship rows currently stored for the unordered pair, in table
order; the spec's one-row-per-pair invariant says this has length one
once the pair has ever connected. -/
def pairRows (fs : List Friendship) (a b : String) : List Friendship :=
  fs.filter (matchesPair a b)

/-- The active friendship rows currently stored for the unordered pair. -/
def activePairRows (fs : List Friendship) (a b : String) : List Friendship :=
  fs.filter (fun f => matchesPair a b f && f.ended_at == none)

/-! ### Order facts about the identifier comparison -/

theorem charListLt_trichotomy (xs ys : List Char) :
    charListLt xs ys = true ∨ xs = ys ∨ charListLt ys xs = true := by
  induction xs generalizing ys with
  | nil => cases ys with
    | nil => exact Or.inr (Or.inl rfl)
    | cons d ds => exact Or.inl rfl
  | cons c cs ih =>
    cases ys with
    | nil => exact Or.inr (Or.inr rfl)
    | cons d ds =>
      rcases Nat.lt_trichotomy c.toNat d.toNat with h | h | h
      · left; simp [charListLt, h]
      · have hcd : c = d := Char.ext (UInt32.ext h)
        subst hcd
        rcases ih ds with h1 | h1 | h1
        · left; simp [charListLt, h1]
        · right; left; rw [h1]
        · right; right; simp [charListLt, h1]
      · right; right; simp [charListLt, h, Nat.lt_asymm h]

theorem idLt_trichotomy (a b : String) :
    idLt a b = true ∨ a = b ∨ idLt b a = true := by
  rcases charListLt_trichotomy a.data b.data with h | h | h
  · exact Or.inl h
  · exact Or.inr (Or.inl (String.ext h))
  · exact Or.inr (Or.inr h)

/-! ### Lemmas about pair matching and the lookups -/

theorem matchesPair_symm (a b : String) (f : Friendship) :
    matchesPair b a f = matchesPair a b f := by
  unfold matchesPair
  rw [Bool.or_comm]

theorem pairRows_symm (fs : List Friendship) (a b : String) :
    pairRows fs b a = pairRows fs a b := by
  unfold pairRows
  exact List.filter_congr (fun f _ => matchesPair_symm a b f)

theorem matchesPair_canonRow (a b i : String) (st : Nat) (en : Option Nat) :
    matchesPair a b ⟨i, (canonPair a b).1, (canonPair a b).2, st, en⟩ = true := by
  unfold canonPair matchesPair
  by_cases h : idLt a b = true
  · simp [h]
  · simp [h]

theorem filter_and_nil {α : Type} (p q : α → Bool) (xs : List α)
    (h : xs.filter p = []) : xs.filter (fun x => p x && q x) = [] := by
  rw [List.filter_eq_nil_iff] at h ⊢
  intro a ha
  simp [h a ha]

theorem sortDescBy_singleton {α : Type} (key : α → Nat) (x : α) :
    sortDescBy key [x] = [x] := rfl

theorem lookupPairAny_nil (fs : List Friendship) (a b : String)
    (h : pairRows fs a b = []) : lookupPairAny fs a b = none := by
  unfold pairRows at h
  unfold lookupPairAny
  rw [h]
  rfl

theorem lookupPairAny_single (fs : List Friendship) (a b : String) (f : Friendship)
    (h : pairRows fs a b = [f]) : lookupPairAny fs a b = some f := by
  unfold pairRows at h
  unfold lookupPairAny
  rw [h, sortDescBy_singleton]
  rfl

theorem lookupActivePair_none (fs : List Friendship) (a b : String)
    (h : activePairRows fs a b = []) : lookupActivePair fs a b = Except.ok none := by
  unfold activePairRows at h
  unfold lookupActivePair
  rw [h]

theorem lookupActivePair_single (fs : List Friendship) (a b : String) (f : Friendship)
    (h : activePairRows fs a b = [f]) : lookupActivePair fs a b = Except.ok (some f) := by
  unfold activePairRows at h
  unfold lookupActivePair
  rw [h]

theorem updateFriendship_not_hit (rid : String) (patch : Friendship → Friendship) :
    ∀ xs : List Friendship, (∀ f ∈ xs, f.id ≠ rid) →
      updateFriendship xs rid patch = xs := by
  intro xs
  induction xs with
  | nil => intro _; rfl
  | cons x xs ih =>
    intro h
    have hx : (x.id == rid) = false := by
      have hne := h x (List.mem_cons_self x xs)
      simp [hne]
    have hrest := ih (fun f hf => h f (List.mem_cons_of_mem x hf))
    unfold updateFriendship at hrest ⊢
    simp only [List.map_cons, hx, Bool.false_eq_true, if_false, hrest]

theorem updateFriendship_append_single (xs : List Friendship) (r : Friendship)
    (patch : Friendship → Friendship) (h : ∀ f ∈ xs, f.id ≠ r.id) :
    updateFriendship (xs ++ [r]) r.id patch = xs ++ [patch r] := by
  unfold updateFriendship
  rw [List.map_append]
  have h1 := updateFriendship_not_hit r.id patch xs h
  unfold updateFriendship at h1
  rw [h1]
  simp

/-! ### Path lemmas for the two handlers -/

theorem addFriend_create (s : DbState) (a b rid lid : String) (t : Nat)
    (hne : (a == b) = false) (h0 : lookupPairAny s.friendships a b = none) :
    handleAddFriend allOk s a b t rid lid =
      (⟨s.profiles,
        s.friendships ++ [⟨rid, (canonPair a b).1, (canonPair a b).2, t, none⟩],
        s.friendship_logs ++ [⟨lid, a, b, "started", t⟩]⟩,
       AddFriendResult.added) := by
  simp [handleAddFriend, allOk, hne, h0]

theorem addFriend_already (s : DbState) (a b rid lid : String) (t : Nat)
    (f : Friendship) (hne : (a == b) = false)
    (h0 : lookupPairAny s.friendships a b = some f) (hact : f.ended_at = none) :
    handleAddFriend allOk s a b t rid lid = (s, AddFriendResult.alreadyFriends) := by
  simp [handleAddFriend, allOk, hne, h0, hact]

theorem addFriend_reactivate (s : DbState) (a b rid lid : String) (t e : Nat)
    (f : Friendship) (hne : (a == b) = false)
    (h0 : lookupPairAny s.friendships a b = some f) (hend : f.ended_at = some e) :
    handleAddFriend allOk s a b t rid lid =
      (⟨s.profiles,
        updateFriendship s.friendships f.id
          (fun g => { g with started_at := t, ended_at := none }),
        s.friendship_logs ++ [⟨lid, a, b, "started", t⟩]⟩,
       AddFriendResult.added) := by
  simp [handleAddFriend, allOk, hne, h0, hend]

theorem removeFriend_miss (s : DbState) (a b lid : String) (t : Nat)
    (h0 : lookupActivePair s.friendships a b = Except.ok none) :
    handleRemoveFriend allOk s a b t lid = (s, RemoveFriendResult.notFriends) := by
  simp [handleRemoveFriend, allOk, h0]

theorem removeFriend_hit (s : DbState) (a b lid : String) (t : Nat) (f : Friendship)
    (h0 : lookupActivePair s.friendships a b = Except.ok (some f)) :
    handleRemoveFriend allOk s a b t lid =
      (⟨s.profiles,
        updateFriendship s.friendships f.id (fun g => { g with ended_at := some t }),
        s.friendship_logs ++ [⟨lid, a, b, "ended", t⟩]⟩,
       RemoveFriendResult.removed) := by
  simp [handleRemoveFriend, allOk, h0]

/-! ### Row-count bookkeeping for the unordered pair -/

theorem pairRows_append (xs ys : List Friendship) (a b : String) :
    pairRows (xs ++ ys) a b = pairRows xs a b ++ pairRows ys a b :=
  List.filter_append ..

theorem pairRows_canon_single (a b i : String) (st : Nat) (en : Option Nat) :
    pairRows [⟨i, (canonPair a b).1, (canonPair a b).2, st, en⟩] a b
      = [⟨i, (canonPair a b).1, (canonPair a b).2, st, en⟩] := by
  unfold pairRows
  simp [matchesPair_canonRow]

theorem pairRows_append_canon (fs : List Friendship) (a b i : String) (st : Nat)
    (en : Option Nat) (h : pairRows fs a b = []) :
    pairRows (fs ++ [⟨i, (canonPair a b).1, (canonPair a b).2, st, en⟩]) a b
      = [⟨i, (canonPair a b).1, (canonPair a b).2, st, en⟩] := by
  rw [pairRows_append, h, pairRows_canon_single]
  rfl

theorem activePairRows_nil_of_pairRows_nil (fs : List Friendship) (a b : String)
    (h : pairRows fs a b = []) : activePairRows fs a b = [] := by
  unfold activePairRows
  unfold pairRows at h
  exact filter_and_nil (matchesPair a b) (fun f => f.ended_at == none) fs h

theorem activePairRows_append (xs ys : List Friendship) (a b : String) :
    activePairRows (xs ++ ys) a b = activePairRows xs a b ++ activePairRows ys a b :=
  List.filter_append ..

theorem activePairRows_append_canon_active (fs : List Friendship) (a b i : String)
    (st : Nat) (h : pairRows fs a b = []) :
    activePairRows (fs ++ [⟨i, (canonPair a b).1, (canonPair a b).2, st, none⟩]) a b
      = [⟨i, (canonPair a b).1, (canonPair a b).2, st, none⟩] := by
  rw [activePairRows_append, activePairRows_nil_of_pairRows_nil fs a b h]
  unfold activePairRows
  simp [matchesPair_canonRow]

/-- C1: for distinct profiles A and B with no prior friendship row,
Connect then Disconnect then Connect keeps exactly one friendship row for
the unordered pair at every point — Disconnect only sets `ended_at` on
the row, and the second Connect reuses the very same row (same id `rid`),
refreshing `started_at` to the new instant and clearing `ended_at`
instead of inserting — while appending exactly three log entries in
order: started, ended, started. -/
theorem claim_c1_connect_disconnect_connect
    (ps : List Profile) (fs : List Friendship) (ls : List FriendshipLog)
    (a b rid rid3 lid1 lid2 lid3 : String) (t1 t2 t3 : Nat)
    (hne : a ≠ b)
    (hprior : pairRows fs a b = [])
    (hfresh : ∀ f ∈ fs, f.id ≠ rid) :
    handleAddFriend allOk ⟨ps, fs, ls⟩ a b t1 rid lid1 =
      (⟨ps, fs ++ [⟨rid, (canonPair a b).1, (canonPair a b).2, t1, none⟩],
        ls ++ [⟨lid1, a, b, "started", t1⟩]⟩,
       AddFriendResult.added) ∧
    handleRemoveFriend allOk
        ⟨ps, fs ++ [⟨rid, (canonPair a b).1, (canonPair a b).2, t1, none⟩],
         ls ++ [⟨lid1, a, b, "started", t1⟩]⟩ a b t2 lid2 =
      (⟨ps, fs ++ [⟨rid, (canonPair a b).1, (canonPair a b).2, t1, some t2⟩],
        ls ++ [⟨lid1, a, b, "started", t1⟩, ⟨lid2, a, b, "ended", t2⟩]⟩,
       RemoveFriendResult.removed) ∧
    handleAddFriend allOk
        ⟨ps, fs ++ [⟨rid, (canonPair a b).1, (canonPair a b).2, t1, some t2⟩],
         ls ++ [⟨lid1, a, b, "started", t1⟩, ⟨lid2, a, b, "ended", t2⟩]⟩
        a b t3 rid3 lid3 =
      (⟨ps, fs ++ [⟨rid, (canonPair a b).1, (canonPair a b).2, t3, none⟩],
        ls ++ [⟨lid1, a, b, "started", t1⟩, ⟨lid2, a, b, "ended", t2⟩,
               ⟨lid3, a, b, "started", t3⟩]⟩,
       AddFriendResult.added) ∧
    pairRows (fs ++ [⟨rid, (canonPair a b).1, (canonPair a b).2, t1, none⟩]) a b
      = [⟨rid, (canonPair a b).1, (canonPair a b).2, t1, none⟩] ∧
    pairRows (fs ++ [⟨rid, (canonPair a b).1, (canonPair a b).2, t1, some t2⟩]) a b
      = [⟨rid, (canonPair a b).1, (canonPair a b).2, t1, some t2⟩] ∧
    pairRows (fs ++ [⟨rid, (canonPair a b).1, (canonPair a b).2, t3, none⟩]) a b
      = [⟨rid, (canonPair a b).1, (canonPair a b).2, t3, none⟩] := by
  have hne' : (a == b) = false := by simp [hne]
  have hfresh' : ∀ f ∈ fs,
      f.id ≠ (⟨rid, (canonPair a b).1, (canonPair a b).2, t1, none⟩ : Friendship).id :=
    hfresh
  have hupd2 : updateFriendship
      (fs ++ [⟨rid, (canonPair a b).1, (canonPair a b).2, t1, none⟩]) rid
      (fun g => { g with ended_at := some t2 })
      = fs ++ [⟨rid, (canonPair a b).1, (canonPair a b).2, t1, some t2⟩] :=
    updateFriendship_append_single fs _ _ hfresh'
  have hfresh'' : ∀ f ∈ fs,
      f.id ≠ (⟨rid, (canonPair a b).1, (canonPair a b).2, t1, some t2⟩ : Friendship).id :=
    hfresh
  have hupd3 : updateFriendship
      (fs ++ [⟨rid, (canonPair a b).1, (canonPair a b).2, t1, some t2⟩]) rid
      (fun g => { g with started_at := t3, ended_at := none })
      = fs ++ [⟨rid, (canonPair a b).1, (canonPair a b).2, t3, none⟩] :=
    updateFriendship_append_single fs _ _ hfresh''
  refine ⟨?_, ?_, ?_, ?_, ?_, ?_⟩
  · exact addFriend_create ⟨ps, fs, ls⟩ a b rid lid1 t1 hne'
      (lookupPairAny_nil fs a b hprior)
  · have hl2 := lookupActivePair_single
      (fs ++ [⟨rid, (canonPair a b).1, (canonPair a b).2, t1, none⟩]) a b _
      (activePairRows_append_canon_active fs a b rid t1 hprior)
    have hc2 := removeFriend_hit
      ⟨ps, fs ++ [⟨rid, (canonPair a b).1, (canonPair a b).2, t1, none⟩],
       ls ++ [⟨lid1, a, b, "started", t1⟩]⟩ a b lid2 t2 _ hl2
    rw [hc2]
    simp [hupd2]
  · have hl3 := lookupPairAny_single
      (fs ++ [⟨rid, (canonPair a b).1, (canonPair a b).2, t1, some t2⟩]) a b _
      (pairRows_append_canon fs a b rid t1 (some t2) hprior)
    have hc3 := addFriend_reactivate
      ⟨ps, fs ++ [⟨rid, (canonPair a b).1, (canonPair a b).2, t1, some t2⟩],
       ls ++ [⟨lid1, a, b, "started", t1⟩, ⟨lid2, a, b, "ended", t2⟩]⟩
      a b rid3 lid3 t3 t2 _ hne' hl3 rfl
    rw [hc3]
    simp [hupd3]
  · exact pairRows_append_canon fs a b rid t1 none hprior
  · exact pairRows_append_canon fs a b rid t1 (some t2) hprior
  · exact pairRows_append_canon fs a b rid t3 none hprior

/-- Witness for C1: the connect/disconnect/connect round trip evaluated
on a concrete empty database with profiles "a" and "b". -/
theorem claim_c1_witness :
    ("a" : String) ≠ "b" ∧
    pairRows ([] : List Friendship) "a" "b" = [] ∧
    (∀ f ∈ ([] : List Friendship), f.id ≠ "r1") ∧
    handleAddFriend allOk ⟨[], [], []⟩ "a" "b" 1 "r1" "l1" =
      (⟨[], [⟨"r1", (canonPair "a" "b").1, (canonPair "a" "b").2, 1, none⟩],
        [⟨"l1", "a", "b", "started", 1⟩]⟩,
       AddFriendResult.added) ∧
    handleRemoveFriend allOk
        ⟨[], [⟨"r1", (canonPair "a" "b").1, (canonPair "a" "b").2, 1, none⟩],
         [⟨"l1", "a", "b", "started", 1⟩]⟩ "a" "b" 2 "l2" =
      (⟨[], [⟨"r1", (canonPair "a" "b").1, (canonPair "a" "b").2, 1, some 2⟩],
        [⟨"l1", "a", "b", "started", 1⟩, ⟨"l2", "a", "b", "ended", 2⟩]⟩,
       RemoveFriendResult.removed) ∧
    handleAddFriend allOk
        ⟨[], [⟨"r1", (canonPair "a" "b").1, (canonPair "a" "b").2, 1, some 2⟩],
         [⟨"l1", "a", "b", "started", 1⟩, ⟨"l2", "a", "b", "ended", 2⟩]⟩
        "a" "b" 3 "r2" "l3" =
      (⟨[], [⟨"r1", (canonPair "a" "b").1, (canonPair "a" "b").2, 3, none⟩],
        [⟨"l1", "a", "b", "started", 1⟩, ⟨"l2", "a", "b", "ended", 2⟩,
         ⟨"l3", "a", "b", "started", 3⟩]⟩,
       AddFriendResult.added) := by
  have h := claim_c1_connect_disconnect_connect [] [] [] "a" "b" "r1" "r2"
    "l1" "l2" "l3" 1 2 3 (by decide) rfl (by simp)
  exact ⟨by decide, rfl, by simp, h.1, h.2.1, h.2.2.1⟩

theorem lookupPairAny_symm (gs : List Friendship) (a b : String) :
    lookupPairAny gs b a = lookupPairAny gs a b := by
  unfold lookupPairAny
  rw [List.filter_congr (fun f _ => matchesPair_symm a b f)]

theorem canonPair_sorted (a b : String) (hne : a ≠ b) :
    idLt (canonPair a b).1 (canonPair a b).2 = true := by
  unfold canonPair
  by_cases h : idLt a b = true
  · simp [h]
  · rcases idLt_trichotomy a b with h1 | h1 | h1
    · exact absurd h1 h
    · exact absurd h1 hne
    · simp [h, h1]

/-- C3: Connect(A,B) followed by Connect(B,A) resolves to the same single
friendship row: the existing-pair lookup is orientation-independent, the
swapped call is a no-op reporting already-friends (no duplicate row), the
pair still has exactly one row, and the row created by the first call
stores the two identifiers sorted by the lexicographic identifier
order. -/
theorem claim_c3_pair_canonicalization
    (ps : List Profile) (fs : List Friendship) (ls : List FriendshipLog)
    (a b rid rid2 lid1 lid2 : String) (t1 t2 : Nat)
    (hne : a ≠ b)
    (hprior : pairRows fs a b = []) :
    (∀ gs : List Friendship, lookupPairAny gs b a = lookupPairAny gs a b) ∧
    handleAddFriend allOk ⟨ps, fs, ls⟩ a b t1 rid lid1 =
      (⟨ps, fs ++ [⟨rid, (canonPair a b).1, (canonPair a b).2, t1, none⟩],
        ls ++ [⟨lid1, a, b, "started", t1⟩]⟩,
       AddFriendResult.added) ∧
    handleAddFriend allOk
        ⟨ps, fs ++ [⟨rid, (canonPair a b).1, (canonPair a b).2, t1, none⟩],
         ls ++ [⟨lid1, a, b, "started", t1⟩]⟩ b a t2 rid2 lid2 =
      (⟨ps, fs ++ [⟨rid, (canonPair a b).1, (canonPair a b).2, t1, none⟩],
        ls ++ [⟨lid1, a, b, "started", t1⟩]⟩,
       AddFriendResult.alreadyFriends) ∧
    pairRows (fs ++ [⟨rid, (canonPair a b).1, (canonPair a b).2, t1, none⟩]) a b
      = [⟨rid, (canonPair a b).1, (canonPair a b).2, t1, none⟩] ∧
    idLt (canonPair a b).1 (canonPair a b).2 = true := by
  have hne' : (a == b) = false := by simp [hne]
  have hne'' : (b == a) = false := by simp [Ne.symm hne]
  have hone := pairRows_append_canon fs a b rid t1 none hprior
  refine ⟨fun gs => lookupPairAny_symm gs a b, ?_, ?_, hone, canonPair_sorted a b hne⟩
  · exact addFriend_create ⟨ps, fs, ls⟩ a b rid lid1 t1 hne'
      (lookupPairAny_nil fs a b hprior)
  · have hl2 : lookupPairAny
        (fs ++ [⟨rid, (canonPair a b).1, (canonPair a b).2, t1, none⟩]) b a
        = some ⟨rid, (canonPair a b).1, (canonPair a b).2, t1, none⟩ := by
      rw [lookupPairAny_symm]
      exact lookupPairAny_single _ a b _ hone
    exact addFriend_already _ b a rid2 lid2 t2 _ hne'' hl2 rfl

/-- Witness for C3: the swapped-order second connect evaluated on a
concrete database. -/
theorem claim_c3_witness :
    ("a" : String) ≠ "b" ∧
    pairRows ([] : List Friendship) "a" "b" = [] ∧
    lookupPairAny [⟨"r1", "a", "b", 1, none⟩] "b" "a" =
      lookupPairAny [⟨"r1", "a", "b", 1, none⟩] "a" "b" ∧
    handleAddFriend allOk ⟨[], [], []⟩ "a" "b" 1 "r1" "l1" =
      (⟨[], [⟨"r1", (canonPair "a" "b").1, (canonPair "a" "b").2, 1, none⟩],
        [⟨"l1", "a", "b", "started", 1⟩]⟩,
       AddFriendResult.added) ∧
    handleAddFriend allOk
        ⟨[], [⟨"r1", (canonPair "a" "b").1, (canonPair "a" "b").2, 1, none⟩],
         [⟨"l1", "a", "b", "started", 1⟩]⟩ "b" "a" 2 "r2" "l2" =
      (⟨[], [⟨"r1", (canonPair "a" "b").1, (canonPair "a" "b").2, 1, none⟩],
        [⟨"l1", "a", "b", "started", 1⟩]⟩,
       AddFriendResult.alreadyFriends) ∧
    idLt (canonPair "a" "b").1 (canonPair "a" "b").2 = true := by
  have h := claim_c3_pair_canonicalization [] [] [] "a" "b" "r1" "r2" "l1" "l2"
    1 2 (by decide) rfl
  exact ⟨by decide, rfl, h.1 [⟨"r1", "a", "b", 1, none⟩], h.2.1, h.2.2.1, h.2.2.2.2⟩

/-- C4: Connect is idempotent on an active pair: after a first successful
Connect(A,B), a second Connect(A,B) reports already-friends, changes
nothing (no row write, no log entry), and exactly one active friendship
row exists for the pair. -/
theorem claim_c4_connect_idempotent
    (ps : List Profile) (fs : List Friendship) (ls : List FriendshipLog)
    (a b rid rid2 lid1 lid2 : String) (t1 t2 : Nat)
    (hne : a ≠ b)
    (hprior : pairRows fs a b = []) :
    handleAddFriend allOk ⟨ps, fs, ls⟩ a b t1 rid lid1 =
      (⟨ps, fs ++ [⟨rid, (canonPair a b).1, (canonPair a b).2, t1, none⟩],
        ls ++ [⟨lid1, a, b, "started", t1⟩]⟩,
       AddFriendResult.added) ∧
    handleAddFriend allOk
        ⟨ps, fs ++ [⟨rid, (canonPair a b).1, (canonPair a b).2, t1, none⟩],
         ls ++ [⟨lid1, a, b, "started", t1⟩]⟩ a b t2 rid2 lid2 =
      (⟨ps, fs ++ [⟨rid, (canonPair a b).1, (canonPair a b).2, t1, none⟩],
        ls ++ [⟨lid1, a, b, "started", t1⟩]⟩,
       AddFriendResult.alreadyFriends) ∧
    activePairRows (fs ++ [⟨rid, (canonPair a b).1, (canonPair a b).2, t1, none⟩]) a b
      = [⟨rid, (canonPair a b).1, (canonPair a b).2, t1, none⟩] := by
  have hne' : (a == b) = false := by simp [hne]
  refine ⟨?_, ?_, activePairRows_append_canon_active fs a b rid t1 hprior⟩
  · exact addFriend_create ⟨ps, fs, ls⟩ a b rid lid1 t1 hne'
      (lookupPairAny_nil fs a b hprior)
  · exact addFriend_already _ a b rid2 lid2 t2 _ hne'
      (lookupPairAny_single _ a b _ (pairRows_append_canon fs a b rid t1 none hprior))
      rfl

/-- Witness for C4: a doubled connect evaluated on a concrete empty
database. -/
theorem claim_c4_witness :
    ("a" : String) ≠ "b" ∧
    pairRows ([] : List Friendship) "a" "b" = [] ∧
    handleAddFriend allOk
        ⟨[], [⟨"r1", (canonPair "a" "b").1, (canonPair "a" "b").2, 1, none⟩],
         [⟨"l1", "a", "b", "started", 1⟩]⟩ "a" "b" 2 "r2" "l2" =
      (⟨[], [⟨"r1", (canonPair "a" "b").1, (canonPair "a" "b").2, 1, none⟩],
        [⟨"l1", "a", "b", "started", 1⟩]⟩,
       AddFriendResult.alreadyFriends) ∧
    activePairRows [⟨"r1", (canonPair "a" "b").1, (canonPair "a" "b").2, 1, none⟩]
        "a" "b"
      = [⟨"r1", (canonPair "a" "b").1, (canonPair "a" "b").2, 1, none⟩] := by
  have h := claim_c4_connect_idempotent [] [] [] "a" "b" "r1" "r2" "l1" "l2" 1 2
    (by decide) rfl
  exact ⟨by decide, rfl, h.2.1, h.2.2⟩

/-- C6: Connect(A,A) is rejected as a validation error before any storage
call: for EVERY storage environment (even one in which all storage calls
would fail, showing none is made) the state is unchanged and the
self-validation warning is reported. -/
theorem claim_c6_self_connect_rejected
    (env : StoreEnv) (s : DbState) (a : String) (t : Nat) (rid lid : String) :
    handleAddFriend env s a a t rid lid = (s, AddFriendResult.selfValidation) := by
  simp [handleAddFriend]

/-- C7: Disconnect on a pair with no active friendship row is a no-op:
state unchanged (no row created or modified, no log appended) and the
not-currently-friends notice is reported. -/
theorem claim_c7_disconnect_noop
    (ps : List Profile) (fs : List Friendship) (ls : List FriendshipLog)
    (a b lid : String) (t : Nat)
    (hnoactive : activePairRows fs a b = []) :
    handleRemoveFriend allOk ⟨ps, fs, ls⟩ a b t lid =
      (⟨ps, fs, ls⟩, RemoveFriendResult.notFriends) := by
  exact removeFriend_miss ⟨ps, fs, ls⟩ a b lid t (lookupActivePair_none fs a b hnoactive)

/-- Witness for C7: disconnect evaluated on a concrete database holding
only an already-ended row for the pair. -/
theorem claim_c7_witness :
    activePairRows [⟨"r1", "a", "b", 1, some 2⟩] "a" "b" = [] ∧
    handleRemoveFriend allOk ⟨[], [⟨"r1", "a", "b", 1, some 2⟩], []⟩ "a" "b" 3 "l1" =
      (⟨[], [⟨"r1", "a", "b", 1, some 2⟩], []⟩, RemoveFriendResult.notFriends) :=
  ⟨by decide,
   claim_c7_disconnect_noop [] [⟨"r1", "a", "b", 1, some 2⟩] [] "a" "b" "l1" 3
     (by decide)⟩

/-- C2: in every Connect/Disconnect path that writes, the friendship row
write is applied before the log insert is attempted: when the log insert
fails after the row write succeeded (environment ⟨true, true, false⟩),
the operation reports failure to the caller while the friendship table
durably holds the insert or update (and the log table is unchanged) — no
rollback, retry or compensation happens.  The three conjuncts cover the
create and reactivate paths of Connect and the end path of Disconnect. -/
theorem claim_c2_row_write_before_log :
    (∀ (ps : List Profile) (fs : List Friendship) (ls : List FriendshipLog)
       (a b rid lid : String) (t : Nat),
       (a == b) = false → lookupPairAny fs a b = none →
       handleAddFriend ⟨true, true, false⟩ ⟨ps, fs, ls⟩ a b t rid lid =
         (⟨ps, fs ++ [⟨rid, (canonPair a b).1, (canonPair a b).2, t, none⟩], ls⟩,
          AddFriendResult.failure)) ∧
    (∀ (ps : List Profile) (fs : List Friendship) (ls : List FriendshipLog)
       (a b rid lid : String) (t e : Nat) (f : Friendship),
       (a == b) = false → lookupPairAny fs a b = some f → f.ended_at = some e →
       handleAddFriend ⟨true, true, false⟩ ⟨ps, fs, ls⟩ a b t rid lid =
         (⟨ps, updateFriendship fs f.id
             (fun g => { g with started_at := t, ended_at := none }), ls⟩,
          AddFriendResult.failure)) ∧
    (∀ (ps : List Profile) (fs : List Friendship) (ls : List FriendshipLog)
       (a b lid : String) (t : Nat) (f : Friendship),
       lookupActivePair fs a b = Except.ok (some f) →
       handleRemoveFriend ⟨true, true, false⟩ ⟨ps, fs, ls⟩ a b t lid =
         (⟨ps, updateFriendship fs f.id (fun g => { g with ended_at := some t }), ls⟩,
          RemoveFriendResult.failure)) := by
  refine ⟨?_, ?_, ?_⟩
  · intro ps fs ls a b rid lid t hne hl
    simp [handleAddFriend, hne, hl]
  · intro ps fs ls a b rid lid t e f hne hl hend
    simp [handleAddFriend, hne, hl, hend]
  · intro ps fs ls a b lid t f hl
    simp [handleRemoveFriend, hl]

/-- Witness for C2: the log-write failure evaluated on concrete states
for the create path of Connect and the end path of Disconnect. -/
theorem claim_c2_witness :
    (("a" : String) == "b") = false ∧
    lookupPairAny ([] : List Friendship) "a" "b" = none ∧
    handleAddFriend ⟨true, true, false⟩ ⟨[], [], []⟩ "a" "b" 1 "r1" "l1" =
      (⟨[], [⟨"r1", (canonPair "a" "b").1, (canonPair "a" "b").2, 1, none⟩], []⟩,
       AddFriendResult.failure) ∧
    lookupActivePair [⟨"r1", "a", "b", 1, none⟩] "a" "b" =
      Except.ok (some ⟨"r1", "a", "b", 1, none⟩) ∧
    handleRemoveFriend ⟨true, true, false⟩ ⟨[], [⟨"r1", "a", "b", 1, none⟩], []⟩
        "a" "b" 2 "l2" =
      (⟨[], updateFriendship [⟨"r1", "a", "b", 1, none⟩] "r1"
          (fun g => { g with ended_at := some 2 }), []⟩,
       RemoveFriendResult.failure) := by
  have h := claim_c2_row_write_before_log
  have hl : lookupActivePair [⟨"r1", "a", "b", 1, none⟩] "a" "b" =
      Except.ok (some ⟨"r1", "a", "b", 1, none⟩) :=
    lookupActivePair_single _ "a" "b" _ (by decide)
  exact ⟨by decide, rfl,
    h.1 [] [] [] "a" "b" "r1" "l1" 1 (by decide) rfl,
    hl,
    h.2.2 [] [⟨"r1", "a", "b", 1, none⟩] [] "a" "b" "l2" 2
      ⟨"r1", "a", "b", 1, none⟩ hl⟩

/-- C9: every log entry appended by a successful Connect or Disconnect
records the identifiers in the orientation the caller used — `user_a_id`
is the acting user, `user_b_id` the other — never in canonicalized
order, in any storage environment and from any state. -/
theorem claim_c9_log_caller_orientation :
    (∀ (env : StoreEnv) (s : DbState) (a b : String) (t : Nat)
       (rid lid : String) (s' : DbState),
       handleAddFriend env s a b t rid lid = (s', AddFriendResult.added) →
       s'.friendship_logs = s.friendship_logs ++ [⟨lid, a, b, "started", t⟩]) ∧
    (∀ (env : StoreEnv) (s : DbState) (a b : String) (t : Nat)
       (lid : String) (s' : DbState),
       handleRemoveFriend env s a b t lid = (s', RemoveFriendResult.removed) →
       s'.friendship_logs = s.friendship_logs ++ [⟨lid, a, b, "ended", t⟩]) := by
  constructor
  · intro env s a b t rid lid s' h
    unfold handleAddFriend at h
    repeat' split at h
    all_goals injection h with h1 h2
    all_goals try simp at h2
    all_goals rw [← h1]
  · intro env s a b t lid s' h
    unfold handleRemoveFriend at h
    repeat' split at h
    all_goals injection h with h1 h2
    all_goals try simp at h2
    all_goals rw [← h1]

/-- Witness for C9: a successful connect and a successful disconnect on
concrete states where the stored row is canonicalized the other way
around ("b" acts on "a"), checking the log keeps the caller's
orientation. -/
theorem claim_c9_witness :
    handleAddFriend allOk ⟨[], [], []⟩ "b" "a" 1 "r1" "l1" =
      (⟨[], [⟨"r1", "a", "b", 1, none⟩], [⟨"l1", "b", "a", "started", 1⟩]⟩,
       AddFriendResult.added) ∧
    (⟨[], [⟨"r1", "a", "b", 1, none⟩],
      [⟨"l1", "b", "a", "started", 1⟩]⟩ : DbState).friendship_logs =
      ([] : List FriendshipLog) ++ [⟨"l1", "b", "a", "started", 1⟩] ∧
    handleRemoveFriend allOk ⟨[], [⟨"r1", "a", "b", 1, none⟩], []⟩ "b" "a" 2 "l2" =
      (⟨[], [⟨"r1", "a", "b", 1, some 2⟩], [⟨"l2", "b", "a", "ended", 2⟩]⟩,
       RemoveFriendResult.removed) ∧
    (⟨[], [⟨"r1", "a", "b", 1, some 2⟩],
      [⟨"l2", "b", "a", "ended", 2⟩]⟩ : DbState).friendship_logs =
      ([] : List FriendshipLog) ++ [⟨"l2", "b", "a", "ended", 2⟩] := by
  refine ⟨by decide, ?_, by decide, ?_⟩
  · exact claim_c9_log_caller_orientation.1 allOk ⟨[], [], []⟩ "b" "a" 1 "r1" "l1"
      ⟨[], [⟨"r1", "a", "b", 1, none⟩], [⟨"l1", "b", "a", "started", 1⟩]⟩ (by decide)
  · exact claim_c9_log_caller_orientation.2 allOk ⟨[], [⟨"r1", "a", "b", 1, none⟩], []⟩
      "b" "a" 2 "l2"
      ⟨[], [⟨"r1", "a", "b", 1, some 2⟩], [⟨"l2", "b", "a", "ended", 2⟩]⟩ (by decide)

/-! ### Lemmas about the JavaScript-Map model used by the friend list -/

theorem mapGet_mapSet_self (m : List (String × List Profile)) (k : String)
    (v : List Profile) : mapGet (mapSet m k v) k = some v := by
  induction m with
  | nil => simp [mapSet, mapGet, List.find?]
  | cons e m ih =>
    by_cases h : (e.fst == k) = true
    · simp [mapSet, h, mapGet, List.find?]
    · simp only [mapSet, h, Bool.false_eq_true, if_false]
      simp only [mapGet, List.find?, h] at ih ⊢
      exact ih

theorem mapGet_mapSet_ne (m : List (String × List Profile)) (k k' : String)
    (v : List Profile) (h : k' ≠ k) : mapGet (mapSet m k v) k' = mapGet m k' := by
  have hkk : (k == k') = false := by simp [Ne.symm h]
  induction m with
  | nil => simp [mapSet, mapGet, List.find?, hkk]
  | cons e m ih =>
    by_cases he : (e.fst == k) = true
    · have he' : (e.fst == k') = false := by
        have : e.fst = k := by simpa using he
        simp [this, Ne.symm h]
      simp [mapSet, he, mapGet, List.find?, hkk, he']
    · by_cases he' : (e.fst == k') = true
      · simp [mapSet, he, mapGet, List.find?, he']
      · simp only [mapSet, he, Bool.false_eq_true, if_false]
        simp only [mapGet, List.find?, he', Bool.false_eq_true] at ih ⊢
        exact ih

theorem friendMapStep_mem_both (ps : List Profile) (m : List (String × List Profile))
    (r : Friendship) (pa pb : Profile) (hne : r.user_a_id ≠ r.user_b_id)
    (ha : profileGet ps r.user_a_id = some pa)
    (hb : profileGet ps r.user_b_id = some pb) :
    pb ∈ (mapGet (friendMapStep ps m r) r.user_a_id).getD [] ∧
    pa ∈ (mapGet (friendMapStep ps m r) r.user_b_id).getD [] := by
  unfold friendMapStep
  rw [ha, hb]
  constructor
  · rw [mapGet_mapSet_ne _ _ _ _ hne, mapGet_mapSet_self]
    simp
  · rw [mapGet_mapSet_self]
    simp

theorem friendMapStep_missing (ps : List Profile) (m : List (String × List Profile))
    (r : Friendship)
    (h : profileGet ps r.user_a_id = none ∨ profileGet ps r.user_b_id = none) :
    friendMapStep ps m r = m := by
  unfold friendMapStep
  rcases h with h | h
  · cases hy : profileGet ps r.user_b_id <;> rw [h]
  · cases hx : profileGet ps r.user_a_id <;> rw [h]

theorem activeFriendMap_append_active (ps : List Profile) (fs : List Friendship)
    (r : Friendship) (hr : r.ended_at = none) :
    activeFriendMap ps (fs ++ [r])
      = friendMapStep ps (activeFriendMap ps fs) r := by
  unfold activeFriendMap
  rw [List.filter_append]
  rw [show List.filter (fun f => f.ended_at == none) [r] = [r] from by simp [hr]]
  rw [List.foldl_append]
  rfl

/-- C8: friendship is symmetric in the read model: after a successful
Connect(A, B) on existing profiles, the recomputed active-friend
projection lists B among A's friends and A among B's friends. -/
theorem claim_c8_read_model_symmetry
    (ps : List Profile) (fs : List Friendship) (ls : List FriendshipLog)
    (a b rid lid : String) (t : Nat) (pa pb : Profile)
    (hne : a ≠ b)
    (hprior : pairRows fs a b = [])
    (hpa : profileGet ps a = some pa)
    (hpb : profileGet ps b = some pb) :
    handleAddFriend allOk ⟨ps, fs, ls⟩ a b t rid lid =
      (⟨ps, fs ++ [⟨rid, (canonPair a b).1, (canonPair a b).2, t, none⟩],
        ls ++ [⟨lid, a, b, "started", t⟩]⟩,
       AddFriendResult.added) ∧
    pb ∈ getFriendsForUser ps
        (fs ++ [⟨rid, (canonPair a b).1, (canonPair a b).2, t, none⟩]) a ∧
    pa ∈ getFriendsForUser ps
        (fs ++ [⟨rid, (canonPair a b).1, (canonPair a b).2, t, none⟩]) b := by
  have hne' : (a == b) = false := by simp [hne]
  refine ⟨addFriend_create ⟨ps, fs, ls⟩ a b rid lid t hne'
    (lookupPairAny_nil fs a b hprior), ?_⟩
  by_cases hab : idLt a b = true
  · have hc : canonPair a b = (a, b) := by simp [canonPair, hab]
    rw [hc]
    have hmem := friendMapStep_mem_both ps (activeFriendMap ps fs)
      ⟨rid, a, b, t, none⟩ pa pb hne hpa hpb
    unfold getFriendsForUser
    rw [activeFriendMap_append_active ps fs ⟨rid, a, b, t, none⟩ rfl]
    exact hmem
  · have hc : canonPair a b = (b, a) := by simp [canonPair, hab]
    rw [hc]
    have hmem := friendMapStep_mem_both ps (activeFriendMap ps fs)
      ⟨rid, b, a, t, none⟩ pb pa (Ne.symm hne) hpb hpa
    unfold getFriendsForUser
    rw [activeFriendMap_append_active ps fs ⟨rid, b, a, t, none⟩ rfl]
    exact ⟨hmem.2, hmem.1⟩

/-- Witness for C8: a concrete connect between profiles "a" and "b",
checking both directions of the recomputed friend projection. -/
theorem claim_c8_witness :
    profileGet [⟨"a", "A", "a@x", none, none, none, none, none, none, 0⟩,
                ⟨"b", "B", "b@x", none, none, none, none, none, none, 0⟩] "a"
      = some ⟨"a", "A", "a@x", none, none, none, none, none, none, 0⟩ ∧
    (⟨"b", "B", "b@x", none, none, none, none, none, none, 0⟩ : Profile) ∈
      getFriendsForUser
        [⟨"a", "A", "a@x", none, none, none, none, none, none, 0⟩,
         ⟨"b", "B", "b@x", none, none, none, none, none, none, 0⟩]
        [⟨"r1", (canonPair "a" "b").1, (canonPair "a" "b").2, 1, none⟩] "a" ∧
    (⟨"a", "A", "a@x", none, none, none, none, none, none, 0⟩ : Profile) ∈
      getFriendsForUser
        [⟨"a", "A", "a@x", none, none, none, none, none, none, 0⟩,
         ⟨"b", "B", "b@x", none, none, none, none, none, none, 0⟩]
        [⟨"r1", (canonPair "a" "b").1, (canonPair "a" "b").2, 1, none⟩] "b" := by
  have h := claim_c8_read_model_symmetry
    [⟨"a", "A", "a@x", none, none, none, none, none, none, 0⟩,
     ⟨"b", "B", "b@x", none, none, none, none, none, none, 0⟩]
    [] [] "a" "b" "r1" "l1" 1
    ⟨"a", "A", "a@x", none, none, none, none, none, none, 0⟩
    ⟨"b", "B", "b@x", none, none, none, none, none, none, 0⟩
    (by decide) rfl (by decide) (by decide)
  exact ⟨by decide, h.2.1, h.2.2⟩

/-- C10: an active friendship row one of whose endpoints has no matching
profile in the current profiles snapshot (for instance after that profile
was deleted) contributes nothing to the recomputed friend projection of
either side; and profile deletion itself touches only the profiles table,
leaving friendship and log rows in place. -/
theorem claim_c10_missing_profile_row_ignored
    (ps : List Profile) (xs ys : List Friendship) (r : Friendship) (u : String)
    (h : profileGet ps r.user_a_id = none ∨ profileGet ps r.user_b_id = none) :
    getFriendsForUser ps (xs ++ r :: ys) u = getFriendsForUser ps (xs ++ ys) u ∧
    (∀ (s : DbState) (uid : String),
      (handleDeleteUser s uid).friendships = s.friendships ∧
      (handleDeleteUser s uid).friendship_logs = s.friendship_logs ∧
      (handleDeleteUser s uid).profiles = s.profiles.filter (fun p => !(p.id == uid))) := by
  constructor
  · unfold getFriendsForUser activeFriendMap
    rw [List.filter_append, List.filter_append]
    by_cases hr : (r.ended_at == none) = true
    · rw [show List.filter (fun f => f.ended_at == none) (r :: ys)
          = r :: List.filter (fun f => f.ended_at == none) ys from by simp [hr]]
      rw [List.foldl_append, List.foldl_append, List.foldl_cons]
      rw [friendMapStep_missing ps _ r h]
    · rw [show List.filter (fun f => f.ended_at == none) (r :: ys)
          = List.filter (fun f => f.ended_at == none) ys from by simp [hr]]
  · intro s uid
    exact ⟨rfl, rfl, rfl⟩

/-- Witness for C10: a concrete active row whose second endpoint "x" has
no profile; the projection ignores it entirely. -/
theorem claim_c10_witness :
    (profileGet [⟨"a", "A", "a@x", none, none, none, none, none, none, 0⟩]
        (⟨"r1", "a", "x", 1, none⟩ : Friendship).user_a_id = none ∨
     profileGet [⟨"a", "A", "a@x", none, none, none, none, none, none, 0⟩]
        (⟨"r1", "a", "x", 1, none⟩ : Friendship).user_b_id = none) ∧
    getFriendsForUser [⟨"a", "A", "a@x", none, none, none, none, none, none, 0⟩]
        ([] ++ ⟨"r1", "a", "x", 1, none⟩ :: []) "a"
      = getFriendsForUser [⟨"a", "A", "a@x", none, none, none, none, none, none, 0⟩]
          ([] ++ []) "a" := by
  have h := claim_c10_missing_profile_row_ignored
    [⟨"a", "A", "a@x", none, none, none, none, none, none, 0⟩]
    [] [] ⟨"r1", "a", "x", 1, none⟩ "a" (by decide)
  exact ⟨by decide, h.1⟩

/-! ### Stable-sort lemmas for the log view -/

theorem insertDescBy_perm {α : Type} (key : α → Nat) (x : α) (l : List α) :
    List.Perm (insertDescBy key x l) (x :: l) := by
  induction l with
  | nil => exact List.Perm.refl [x]
  | cons y ys ih =>
    simp only [insertDescBy]
    by_cases h : key y ≤ key x
    · rw [if_pos h]
    · rw [if_neg h]
      exact (ih.cons y).trans (List.Perm.swap x y ys)

theorem sortDescBy_perm {α : Type} (key : α → Nat) (l : List α) :
    List.Perm (sortDescBy key l) l := by
  induction l with
  | nil => exact List.Perm.refl []
  | cons x xs ih =>
    simp only [sortDescBy]
    exact (insertDescBy_perm key x (sortDescBy key xs)).trans (ih.cons x)

theorem insertDescBy_sorted {α : Type} (key : α → Nat) (x : α) (l : List α)
    (hl : List.Pairwise (fun p q => key q ≤ key p) l) :
    List.Pairwise (fun p q => key q ≤ key p) (insertDescBy key x l) := by
  induction l with
  | nil => simp [insertDescBy]
  | cons y ys ih =>
    cases hl with
    | cons hy hys =>
      simp only [insertDescBy]
      by_cases h : key y ≤ key x
      · rw [if_pos h]
        refine List.Pairwise.cons ?_ (List.Pairwise.cons hy hys)
        intro z hz
        rcases List.mem_cons.mp hz with rfl | hz'
        · exact h
        · exact Nat.le_trans (hy z hz') h
      · rw [if_neg h]
        refine List.Pairwise.cons ?_ (ih hys)
        intro z hz
        rcases List.mem_cons.mp ((insertDescBy_perm key x ys).mem_iff.mp hz)
          with rfl | hz'
        · exact Nat.le_of_lt (Nat.lt_of_not_le h)
        · exact hy z hz'

theorem sortDescBy_sorted {α : Type} (key : α → Nat) (l : List α) :
    List.Pairwise (fun p q => key q ≤ key p) (sortDescBy key l) := by
  induction l with
  | nil => simp [sortDescBy]
  | cons x xs ih =>
    simp only [sortDescBy]
    exact insertDescBy_sorted key x (sortDescBy key xs) ih

theorem insertDescBy_filter_key {α : Type} (key : α → Nat) (t : Nat) (x : α)
    (l : List α) :
    (insertDescBy key x l).filter (fun y => key y == t)
      = (x :: l).filter (fun y => key y == t) := by
  induction l with
  | nil => rfl
  | cons y ys ih =>
    simp only [insertDescBy]
    by_cases h : key y ≤ key x
    · rw [if_pos h]
    · rw [if_neg h]
      by_cases hy : (key y == t) = true
      · by_cases hx : (key x == t) = true
        · exfalso
          have h1 : key y = t := by simpa using hy
          have h2 : key x = t := by simpa using hx
          exact h (Nat.le_of_eq (h1.trans h2.symm))
        · simp only [List.filter_cons, hy, hx, ih]
          simp [hy, hx]
      · simp only [List.filter_cons, hy, ih]
        simp [hy]

theorem sortDescBy_filter_key {α : Type} (key : α → Nat) (t : Nat) (l : List α) :
    (sortDescBy key l).filter (fun y => key y == t)
      = l.filter (fun y => key y == t) := by
  induction l with
  | nil => rfl
  | cons x xs ih =>
    simp only [sortDescBy]
    rw [insertDescBy_filter_key]
    simp only [List.filter_cons, ih]

/-- C5 counterexample: the log view applies NO identifier tie-break on
equal `created_at` values — equal-timestamp entries simply keep their
snapshot order, so neither an ascending-id nor a descending-id tie-break
describes the output (each conjunct exhibits a concrete snapshot whose
output violates one direction). -/
theorem claim_c5_counterexample :
    ¬ List.Pairwise (fun x y : FriendshipLog =>
        y.created_at < x.created_at ∨
          (x.created_at = y.created_at ∧ idLt x.id y.id = true))
      (selectedUserLogs
        [⟨"2", "u", "v", "started", 5⟩, ⟨"1", "u", "w", "ended", 5⟩] "u") ∧
    ¬ List.Pairwise (fun x y : FriendshipLog =>
        y.created_at < x.created_at ∨
          (x.created_at = y.created_at ∧ idLt y.id x.id = true))
      (selectedUserLogs
        [⟨"1", "u", "w", "ended", 5⟩, ⟨"2", "u", "v", "started", 5⟩] "u") := by
  have e1 : selectedUserLogs
      [⟨"2", "u", "v", "started", 5⟩, ⟨"1", "u", "w", "ended", 5⟩] "u"
      = [⟨"2", "u", "v", "started", 5⟩, ⟨"1", "u", "w", "ended", 5⟩] := by decide
  have e2 : selectedUserLogs
      [⟨"1", "u", "w", "ended", 5⟩, ⟨"2", "u", "v", "started", 5⟩] "u"
      = [⟨"1", "u", "w", "ended", 5⟩, ⟨"2", "u", "v", "started", 5⟩] := by decide
  rw [e1, e2]
  constructor
  · intro hp
    rcases (List.pairwise_cons.mp hp).1 ⟨"1", "u", "w", "ended", 5⟩ (by simp)
      with h | h
    · exact absurd h (by decide)
    · exact absurd h.2 (by decide)
  · intro hp
    rcases (List.pairwise_cons.mp hp).1 ⟨"2", "u", "v", "started", 5⟩ (by simp)
      with h | h
    · exact absurd h (by decide)
    · exact absurd h.2 (by decide)

/-- C5 (amended): for every user id, the log view returns exactly the
entries whose `user_a_id` or `user_b_id` equals the user, ordered by
`created_at` descending; entries with equal `created_at` keep their
relative order from the input snapshot (the sort is stable), with no
identifier tie-break. -/
theorem claim_c5_amended_logs_for (logs : List FriendshipLog) (u : String) :
    List.Perm (selectedUserLogs logs u)
      (logs.filter (fun l => l.user_a_id == u || l.user_b_id == u)) ∧
    List.Pairwise (fun x y => y.created_at ≤ x.created_at)
      (selectedUserLogs logs u) ∧
    (∀ t : Nat,
      (selectedUserLogs logs u).filter (fun l => l.created_at == t)
        = (logs.filter (fun l => l.user_a_id == u || l.user_b_id == u)).filter
            (fun l => l.created_at == t)) := by
  unfold selectedUserLogs
  exact ⟨sortDescBy_perm FriendshipLog.created_at _,
    sortDescBy_sorted FriendshipLog.created_at _,
    fun t => sortDescBy_filter_key FriendshipLog.created_at t _⟩

end DataDancerDex
